import Mathlib

/-!
Shallow embedding of the constrained-device telemetry-and-actuation control
loop (programmingtheiot CDA python components): the data model
(`ActuatorData`, `SensorData`), the per-actuator idempotent state machine
(`BaseActuatorSimTask.updateActuator`), the command router
(`ActuatorAdapterManager.sendActuatorCommand`), the rule-evaluation and
caching hub (`DeviceDataManager`), the dataset-backed sensor simulator
(`BaseSensorSimTask.generateTelemetry`) and the scheduler-owning managers'
start/stop logic.

Python objects become Lean structures; mutation becomes explicit state
passing; `None` becomes `Option.none`; numeric sensor/actuator values are
rationals; logging is dropped; timestamps are dropped (no claim mentions
them).  Side effects of actuation (the activate/deactivate hooks) are made
observable as an explicit `ActuatorEffect` trace.
-/

namespace PiotCDA

/-- Modelled from the spec: `programmingtheiot.common.ConfigConst` is not under
src/ (only its users are).  The spec requires the command codes ON, OFF and
the default to be distinct, and the sensor / actuator type codes to be
pairwise distinct; the concrete numerals below realise that and nothing in
the development depends on their particular values. -/
def defaultCommand : Int := 0

/-- Modelled from the spec: ON command code (distinct from OFF and default). -/
def commandOn : Int := 1

/-- Modelled from the spec: OFF command code (distinct from ON and default). -/
def commandOff : Int := 2

/-- Modelled from the spec: default numeric value for data instances. -/
def defaultVal : Rat := 0

/-- Modelled from the spec: default status code on freshly built data. -/
def defaultStatus : Int := 0

/-- Modelled from the spec: the `NOT_SET` placeholder string. -/
def notSet : String := "Not Set"

/-- Modelled from the spec: humidity sensor type code. -/
def humiditySensorType : Int := 1

/-- Modelled from the spec: pressure sensor type code. -/
def pressureSensorType : Int := 2

/-- Modelled from the spec: temperature sensor type code. -/
def tempSensorType : Int := 3

/-- Modelled from the spec: CO2 sensor type code (Smart Office addition). -/
def co2SensorType : Int := 4

/-- Modelled from the spec: humidifier actuator type code (legacy). -/
def humidifierActuatorType : Int := 11

/-- Modelled from the spec: HVAC actuator type code (legacy). -/
def hvacActuatorType : Int := 12

/-- Modelled from the spec: LED display actuator type code. -/
def ledDisplayActuatorType : Int := 100

/-- Modelled from the spec: ventilation actuator type code (Smart Office). -/
def ventilationActuatorType : Int := 1001

/-- Modelled from the spec: air purifier actuator type code (Smart Office). -/
def airPurifierActuatorType : Int := 1002

/-- Modelled from the spec: ventilation actuator display name. -/
def ventilationActuatorName : String := "VentilationActuator"

/-- Modelled from the spec: air purifier actuator display name. -/
def airPurifierActuatorName : String := "AirPurifierActuator"

/-- Modelled from the spec: LED actuator display name. -/
def ledActuatorName : String := "LedActuator"

/-- Modelled from the spec: CO2 sensor display name. -/
def co2SensorName : String := "CO2Sensor"

/-- `programmingtheiot.data.ActuatorData` (src/data/ActuatorData.py) together
with the fields it inherits from `BaseIotData` (name, type id, status code,
location id; `BaseIotData` itself is not under src/, those inherited fields
are modelled from the spec's Command data model).  Timestamps are dropped. -/
structure ActuatorData where
  name : String := notSet
  typeID : Int := 0
  locationID : String := notSet
  statusCode : Int := defaultStatus
  value : Rat := defaultVal
  command : Int := defaultCommand
  stateData : String := ""
  isResponse : Bool := false
  deriving Repr, DecidableEq

/-- `ActuatorData.__init__(typeID, name)`: actuator-specific fields get their
defaults (value 0, default command, empty state data, not a response). -/
def mkActuatorData (typeID : Int) (name : String) : ActuatorData :=
  { name := name, typeID := typeID }

/-- `ActuatorData.setAsResponse` (src): marks the instance as a response. -/
def ActuatorData.setAsResponse (a : ActuatorData) : ActuatorData :=
  { a with isResponse := true }

/-- `BaseIotData.setStatusCode`, modelled from the spec ("status code set"):
overwrites the status code. -/
def ActuatorData.setStatusCode (a : ActuatorData) (code : Int) : ActuatorData :=
  { a with statusCode := code }

/-- `BaseIotData.updateData` followed by `ActuatorData._handleUpdateData`
(src/data/ActuatorData.py lines 98-109).  The base-class part is modelled
from the spec ("copy of input fields"): name, type id, status code and
location id are copied; the `_handleUpdateData` part (from src) copies
value, command and state data, and marks the target as a response only when
the source is one. -/
def ActuatorData.updateData (self src : ActuatorData) : ActuatorData :=
  let base := { self with name := src.name, typeID := src.typeID,
                          statusCode := src.statusCode, locationID := src.locationID }
  let withVals := { base with value := src.value, command := src.command,
                              stateData := src.stateData }
  if src.isResponse then withVals.setAsResponse else withVals

/-- `programmingtheiot.data.SensorData` (src/data/SensorData.py) with the
inherited `BaseIotData` fields (modelled from the spec's Reading data
model); timestamps dropped. -/
structure SensorData where
  name : String := notSet
  typeID : Int := 0
  locationID : String := notSet
  value : Rat := defaultVal
  deriving Repr, DecidableEq

/-- Observable actuation side effects: the `_activateActuator` /
`_deactivateActuator` hook invocations of `BaseActuatorSimTask`. -/
inductive ActuatorEffect where
  | activate (val : Rat) (stateData : String)
  | deactivate (val : Rat) (stateData : String)
  deriving Repr, DecidableEq

/-- The polymorphic activate/deactivate hook pair: `BaseActuatorSimTask`
subclasses may override the hooks and return a different status code. -/
structure ActuatorHooks where
  activateStatus : Rat → String → Int
  deactivateStatus : Rat → String → Int

/-- The base-class hooks (src/cda/sim/BaseActuatorSimTask.py lines 122-149):
log-only, status code 0; the Ventilation and Air Purifier sim tasks do not
override them. -/
def simHooks : ActuatorHooks :=
  { activateStatus := fun _ _ => 0, deactivateStatus := fun _ _ => 0 }

/-- `programmingtheiot.cda.sim.BaseActuatorSimTask` instance state
(src/cda/sim/BaseActuatorSimTask.py constructor). -/
structure BaseActuatorSimTask where
  name : String := notSet
  typeID : Int := 0
  simpleName : String := "Actuator"
  lastKnownCommand : Int := defaultCommand
  lastKnownValue : Rat := defaultVal
  latestActuatorResponse : ActuatorData
  deriving Repr, DecidableEq

/-- `BaseActuatorSimTask.__init__(name, typeID, simpleName)` (src): builds the
initial latest-response instance (marked as a response) and zeroes the
last-known command/value pair. -/
def mkActuatorTask (name : String) (typeID : Int) (simpleName : String) :
    BaseActuatorSimTask :=
  { name := name, typeID := typeID, simpleName := simpleName,
    latestActuatorResponse := (mkActuatorData typeID name).setAsResponse }

/-- `BaseActuatorSimTask.updateActuator(data)` (src lines 66-120) as a state
transformer: returns the updated task state, the optional response, and the
trace of activate/deactivate hook invocations.  The incoming `data` is
non-null here (the Python null check is the `Option` match at the callers). -/
def updateActuator (hooks : ActuatorHooks) (s : BaseActuatorSimTask)
    (data : ActuatorData) :
    BaseActuatorSimTask × Option ActuatorData × List ActuatorEffect :=
  if s.typeID = data.typeID then
    let curCommand := data.command
    let curVal := data.value
    if curCommand = s.lastKnownCommand ∧ curVal = s.lastKnownValue then
      (s, none, [])
    else
      let scEff : Int × List ActuatorEffect :=
        if curCommand = commandOn then
          (hooks.activateStatus data.value data.stateData,
           [ActuatorEffect.activate data.value data.stateData])
        else if curCommand = commandOff then
          (hooks.deactivateStatus data.value data.stateData,
           [ActuatorEffect.deactivate data.value data.stateData])
        else
          (-1, [])
      let actuatorResponse :=
        ((ActuatorData.updateData {} data).setStatusCode scEff.1).setAsResponse
      let s' := { s with lastKnownCommand := curCommand,
                         lastKnownValue := curVal,
                         latestActuatorResponse :=
                           s.latestActuatorResponse.updateData actuatorResponse }
      (s', some actuatorResponse, scEff.2)
  else
    (s, none, [])

/-- `programmingtheiot.cda.system.ActuatorAdapterManager` instance state
(src/cda/system/ActuatorAdapterManager.py constructor, lines 57-64): the
configured device location id and one optional task slot per actuator
reference.  Config-lookup plumbing is dropped; the location id carries the
looked-up value. -/
structure ActuatorAdapterManager where
  locationID : String
  ventilationActuator : Option BaseActuatorSimTask := none
  airPurifierActuator : Option BaseActuatorSimTask := none
  ledDisplayActuator : Option BaseActuatorSimTask := none
  humidifierActuator : Option BaseActuatorSimTask := none
  hvacActuator : Option BaseActuatorSimTask := none
  deriving Repr, DecidableEq

/-- `VentilationActuatorSimTask.__init__` (src/cda/sim): a base task with the
ventilation name/type. -/
def mkVentilationActuatorSimTask : BaseActuatorSimTask :=
  mkActuatorTask ventilationActuatorName ventilationActuatorType "VENTILATION"

/-- `AirPurifierActuatorSimTask.__init__` (src/cda/sim): a base task with the
air purifier name/type. -/
def mkAirPurifierActuatorSimTask : BaseActuatorSimTask :=
  mkActuatorTask airPurifierActuatorName airPurifierActuatorType "AIR_PURIFIER"

/-- `LedDisplayEmulatorTask.__init__` (src/cda/emulated): a base task with the
LED name/type. -/
def mkLedDisplayEmulatorTask : BaseActuatorSimTask :=
  mkActuatorTask ledActuatorName ledDisplayActuatorType "LedDisplay"

/-- `ActuatorAdapterManager._initEnvironmentalActuationTasks` (src lines
74-84): assigns fresh Ventilation and Air Purifier sim tasks; the other
three references are untouched. -/
def initEnvironmentalActuationTasks (m : ActuatorAdapterManager) :
    ActuatorAdapterManager :=
  { m with ventilationActuator := some mkVentilationActuatorSimTask,
           airPurifierActuator := some mkAirPurifierActuatorSimTask }

/-- `ActuatorAdapterManager._initActuatorEmulationTasks` (src lines 86-116):
Ventilation and Air Purifier always use the sim tasks; the LED display
emulator is loaded dynamically — `ledLoadOk` is the outcome of that import.
On failure the except-handler falls back to
`_initEnvironmentalActuationTasks`, leaving the LED reference as it was
(`None` from the constructor). -/
def initActuatorEmulationTasks (m : ActuatorAdapterManager) (ledLoadOk : Bool) :
    ActuatorAdapterManager :=
  if ledLoadOk then
    { m with ventilationActuator := some mkVentilationActuatorSimTask,
             airPurifierActuator := some mkAirPurifierActuatorSimTask,
             ledDisplayActuator := some mkLedDisplayEmulatorTask }
  else
    initEnvironmentalActuationTasks
      { m with ventilationActuator := some mkVentilationActuatorSimTask,
               airPurifierActuator := some mkAirPurifierActuatorSimTask }

/-- `ActuatorAdapterManager.__init__` (src lines 31-72): all five actuator
references start as `None`; then either the emulation or the simulation
initialization path runs, selected by the `useEmulator` config flag. -/
def mkActuatorAdapterManager (locationID : String) (useEmulator ledLoadOk : Bool) :
    ActuatorAdapterManager :=
  let m : ActuatorAdapterManager := { locationID := locationID }
  if useEmulator then initActuatorEmulationTasks m ledLoadOk
  else initEnvironmentalActuationTasks m

/-- Helper: run `updateActuator` on the task held in a slot.  A `none` slot
never occurs here (the dispatch conditions below test `isSome` first), but
is mapped to the no-op result. -/
def dispatchToSlot (hooks : ActuatorHooks) (slot : Option BaseActuatorSimTask)
    (d : ActuatorData) :
    Option BaseActuatorSimTask × Option ActuatorData × List ActuatorEffect :=
  match slot with
  | some t =>
      let r := updateActuator hooks t d
      (some r.1, r.2.1, r.2.2)
  | none => (none, none, [])

/-- `ActuatorAdapterManager.sendActuatorCommand(data)` (src lines 118-183) as
a state transformer.  Mirrors the source's guards in order: null check,
response-flag check, location-id gate, then the elif chain over actuator
types, each arm additionally requiring the corresponding actuator reference
to be non-null; every rejection path returns `None` with the manager
unchanged and no actuation effect. -/
def sendActuatorCommand (hooks : ActuatorHooks) (m : ActuatorAdapterManager)
    (data : Option ActuatorData) :
    ActuatorAdapterManager × Option ActuatorData × List ActuatorEffect :=
  match data with
  | none => (m, none, [])
  | some d =>
    if d.isResponse then (m, none, [])
    else if d.locationID = m.locationID then
      let aType := d.typeID
      if aType = ventilationActuatorType ∧ m.ventilationActuator.isSome then
        let r := dispatchToSlot hooks m.ventilationActuator d
        ({ m with ventilationActuator := r.1 }, r.2.1, r.2.2)
      else if aType = airPurifierActuatorType ∧ m.airPurifierActuator.isSome then
        let r := dispatchToSlot hooks m.airPurifierActuator d
        ({ m with airPurifierActuator := r.1 }, r.2.1, r.2.2)
      else if aType = ledDisplayActuatorType ∧ m.ledDisplayActuator.isSome then
        let r := dispatchToSlot hooks m.ledDisplayActuator d
        ({ m with ledDisplayActuator := r.1 }, r.2.1, r.2.2)
      else if aType = hvacActuatorType ∧ m.hvacActuator.isSome then
        let r := dispatchToSlot hooks m.hvacActuator d
        ({ m with hvacActuator := r.1 }, r.2.1, r.2.2)
      else if aType = humidifierActuatorType ∧ m.humidifierActuator.isSome then
        let r := dispatchToSlot hooks m.humidifierActuator d
        ({ m with humidifierActuator := r.1 }, r.2.1, r.2.2)
      else
        (m, none, [])
    else
      (m, none, [])

/-- The threshold / flag configuration `DeviceDataManager.__init__` loads
(src/cda/app/DeviceDataManager.py lines 77-109).  Config-file lookup is out
of scope; the fields carry the looked-up values, defaults as in the source. -/
structure DeviceDataConfig where
  handleCO2ChangeOnDevice : Bool := false
  triggerVentilationCO2Threshold : Rat := 1000
  triggerVentilationTempThreshold : Rat := 26
  triggerAirPurifierHumidityThreshold : Rat := 60
  handleTempChangeOnDevice : Bool := false
  triggerHvacTempFloor : Rat := 18
  triggerHvacTempCeiling : Rat := 20
  deriving Repr, DecidableEq

/-- The ventilation command built for a high CO2 reading
(src/cda/app/DeviceDataManager.py lines 454-459): fresh `ActuatorData` of
the ventilation type with the reading's location id, the ventilation name,
command ON, the reading's value and the CO2 state-data annotation. -/
def co2VentilationCommand (data : SensorData) : ActuatorData :=
  { mkActuatorData ventilationActuatorType ventilationActuatorName with
      locationID := data.locationID, command := commandOn, value := data.value,
      stateData := "CO2 level high - ventilation ON" }

/-- The ventilation command built for a high temperature reading
(src/cda/app/DeviceDataManager.py lines 475-480). -/
def tempVentilationCommand (data : SensorData) : ActuatorData :=
  { mkActuatorData ventilationActuatorType ventilationActuatorName with
      locationID := data.locationID, command := commandOn, value := data.value,
      stateData := "Temperature high - ventilation ON" }

/-- The air purifier command built for a high humidity reading
(src/cda/app/DeviceDataManager.py lines 496-501). -/
def humidityAirPurifierCommand (data : SensorData) : ActuatorData :=
  { mkActuatorData airPurifierActuatorType airPurifierActuatorName with
      locationID := data.locationID, command := commandOn, value := data.value,
      stateData := "Humidity high - air purifier ON" }

/-- `DeviceDataManager._handleSensorDataAnalysis(data)` (src lines 432-506),
returning the list of actuator commands handed to
`handleActuatorCommandMessage`, in source order.  Three independent `if`
blocks (CO2, temperature, humidity), each gated by the
`handleCO2ChangeOnDevice` flag and the reading's type code; each dispatches
exactly one ON command when the reading exceeds its threshold and nothing
otherwise.  No branch consults the legacy HVAC floor/ceiling fields. -/
def handleSensorDataAnalysis (cfg : DeviceDataConfig) (data : SensorData) :
    List ActuatorData :=
  (if cfg.handleCO2ChangeOnDevice ∧ data.typeID = co2SensorType then
    (if data.value > cfg.triggerVentilationCO2Threshold then
      [co2VentilationCommand data]
    else [])
  else []) ++
  (if cfg.handleCO2ChangeOnDevice ∧ data.typeID = tempSensorType then
    (if data.value > cfg.triggerVentilationTempThreshold then
      [tempVentilationCommand data]
    else [])
  else []) ++
  (if cfg.handleCO2ChangeOnDevice ∧ data.typeID = humiditySensorType then
    (if data.value > cfg.triggerAirPurifierHumidityThreshold then
      [humidityAirPurifierCommand data]
    else [])
  else [])

/-- Last-write-wins insertion into the name-keyed sensor cache
(`self.latestSensorDataCache[data.getName()] = data`, a Python dict
assignment). -/
def cachePut (cache : List (String × SensorData)) (key : String)
    (v : SensorData) : List (String × SensorData) :=
  (key, v) :: cache.filter (fun e => e.1 ≠ key)

/-- Python dict lookup on the sensor cache
(`getLatestSensorDataFromCache`, src lines 175-185). -/
def cacheGet (cache : List (String × SensorData)) (key : String) :
    Option SensorData :=
  (cache.find? (fun e => e.1 = key)).map (fun e => e.2)

/-- `DeviceDataManager._handleUpstreamTransmission` (src lines 508-555),
reduced to its observable outcome: the per-channel success booleans.  A
channel's publish is attempted only when that client is enabled; the result
of each attempt (`mqttOk` / `coapOk`) is logged and otherwise discarded —
nothing of it flows back to the caller. -/
def handleUpstreamTransmission (mqttEnabled coapEnabled mqttOk coapOk : Bool) :
    Bool × Bool :=
  (mqttEnabled && mqttOk, coapEnabled && coapOk)

/-- `DeviceDataManager.handleSensorMessage(data)` (src lines 262-291) over the
sensor cache: a null reading is rejected with `false`; otherwise the cache
entry for the reading's name is overwritten — but only when the name is
non-empty (the source guards the dict write with `if data.getName():`) —
the rule analysis runs, the reading is forwarded upstream, and `true` is
returned.  The outcome of the upstream transmission (`mqttOk`, `coapOk`)
is reported but never influences the cache or the return value. -/
def handleSensorMessage (cfg : DeviceDataConfig)
    (cache : List (String × SensorData)) (data : Option SensorData)
    (mqttEnabled coapEnabled mqttOk coapOk : Bool) :
    List (String × SensorData) × List ActuatorData × (Bool × Bool) × Bool :=
  match data with
  | none => (cache, [], (false, false), false)
  | some d =>
    let cache' := if d.name ≠ "" then cachePut cache d.name d else cache
    let cmds := handleSensorDataAnalysis cfg d
    let upstream := handleUpstreamTransmission mqttEnabled coapEnabled mqttOk coapOk
    (cache', cmds, upstream, true)

/-- `programmingtheiot.cda.sim.BaseSensorSimTask` instance state
(src/cda/sim/BaseSensorSimTask.py constructor).  The `SensorDataSet` (its
class lives in SensorDataGenerator.py, not under src/) is modelled from the
spec as the list of its data entries, `getDataEntry(index)` being list
indexing and `getDataEntryCount` the length. -/
structure BaseSensorSimTask where
  name : String := notSet
  typeID : Int := 0
  dataSet : List Rat := []
  dataSetIndex : Nat := 0
  useRandomizer : Bool := false
  latestSensorData : Option SensorData := none
  minVal : Rat := 0
  maxVal : Rat := 1000
  deriving Repr, DecidableEq

/-- `BaseSensorSimTask.__init__(name, typeID, dataSet, minVal, maxVal)` (src):
index starts at 0; the randomizer is used exactly when no data set was
supplied. -/
def mkSensorTask (name : String) (typeID : Int) (dataSet : List Rat)
    (minVal maxVal : Rat) : BaseSensorSimTask :=
  { name := name, typeID := typeID, dataSet := dataSet,
    useRandomizer := dataSet.isEmpty, minVal := minVal, maxVal := maxVal }

/-- `BaseSensorSimTask.generateTelemetry()` (src lines 59-96) as a state
transformer.  In randomizer mode the drawn value is supplied by the `rand`
oracle (the source calls `random.uniform(minVal, maxVal)`); in dataset mode
the value is `dataSet[dataSetIndex]` and the index then advances by one,
resetting to 0 once it reaches the data-entry count.  The fresh reading is
stored as the latest sensor data and returned. -/
def generateTelemetry (s : BaseSensorSimTask) (rand : Rat) :
    BaseSensorSimTask × SensorData :=
  let sensorVal :=
    if s.useRandomizer then rand
    else s.dataSet.getD s.dataSetIndex defaultVal
  let s' :=
    if s.useRandomizer then s
    else
      let i := s.dataSetIndex + 1
      { s with dataSetIndex := if i ≥ s.dataSet.length then 0 else i }
  let sensorData : SensorData :=
    { name := s.name, typeID := s.typeID, value := sensorVal }
  ({ s' with latestSensorData := some sensorData }, sensorData)

/-- The task state after `k` successive `generateTelemetry()` calls (the
oracle is irrelevant in dataset mode and fixed to 0). -/
def genIter (s : BaseSensorSimTask) : Nat → BaseSensorSimTask
  | 0 => s
  | k + 1 => (generateTelemetry (genIter s k) 0).1

/-- The value returned by the k-th `generateTelemetry()` call, 1-based. -/
def nthTelemetryValue (s : BaseSensorSimTask) (k : Nat) : Rat :=
  (generateTelemetry (genIter s (k - 1)) 0).2.value

/-- `SensorAdapterManager.startManager` (src/cda/system/SensorAdapterManager.py
lines 288-302) over the scheduler's running flag: starts the scheduler and
returns `True` when it is not yet running, otherwise leaves it alone and
returns `False`. -/
def sensorAdapterStartManager (schedulerRunning : Bool) : Bool × Bool :=
  if !schedulerRunning then (true, true) else (schedulerRunning, false)

/-- `SensorAdapterManager.stopManager` (src lines 304-316): `shutdown()`
succeeds and returns `True` when the scheduler is running; on an
already-stopped scheduler `shutdown()` raises, the handler swallows it and
returns `False`. -/
def sensorAdapterStopManager (schedulerRunning : Bool) : Bool × Bool :=
  if schedulerRunning then (false, true) else (schedulerRunning, false)

/-- `SystemPerformanceManager` start/stop state
(src/cda/system/SystemPerformanceManager.py): the `isStarted` flag and
whether a scheduler object exists and is running. -/
structure SystemPerformanceManagerState where
  isStarted : Bool := false
  schedulerRunning : Bool := false
  deriving Repr, DecidableEq

/-- `SystemPerformanceManager.startManager` (src lines 76-93): guarded by
`isStarted`; the method has no `return` statement, so the Python call
evaluates to `None` — modelled as `Option Bool` being `none` on every
path. -/
def sysPerfStartManager (s : SystemPerformanceManagerState) :
    SystemPerformanceManagerState × Option Bool :=
  if !s.isStarted then ({ isStarted := true, schedulerRunning := true }, none)
  else (s, none)

/-- `SystemPerformanceManager.stopManager` (src lines 95-106): guarded by
`isStarted`; likewise returns `None` on every path. -/
def sysPerfStopManager (s : SystemPerformanceManagerState) :
    SystemPerformanceManagerState × Option Bool :=
  if s.isStarted then
    ({ isStarted := false,
       schedulerRunning := if s.schedulerRunning then false else s.schedulerRunning },
     none)
  else (s, none)

/-! ## Theorems -/

/-- C1: for every ActuatorData command c whose response flag is set,
`ActuatorAdapterManager.sendActuatorCommand(c)` returns `None` regardless of
c's type code, location id, command code or value; no actuator's
`updateActuator` is invoked (the manager state is unchanged and no
actuation effect occurs). -/
theorem sendActuatorCommand_response_rejected (hooks : ActuatorHooks)
    (m : ActuatorAdapterManager) (c : ActuatorData) (h : c.isResponse = true) :
    sendActuatorCommand hooks m (some c) = (m, none, []) := by
  simp [sendActuatorCommand, h]

/-- Witness for C1: a concrete response-flagged command is rejected by a
concrete manager. -/
theorem sendActuatorCommand_response_rejected_witness :
    ((mkActuatorData ventilationActuatorType "ventilator").setAsResponse).isResponse
       = true ∧
    sendActuatorCommand simHooks (mkActuatorAdapterManager "constraineddevice001" false false)
        (some ((mkActuatorData ventilationActuatorType "ventilator").setAsResponse)) =
      (mkActuatorAdapterManager "constraineddevice001" false false, none, []) :=
  ⟨rfl, sendActuatorCommand_response_rejected simHooks
            (mkActuatorAdapterManager "constraineddevice001" false false)
            ((mkActuatorData ventilationActuatorType "ventilator").setAsResponse) rfl⟩

/-- C3: for every non-response command whose location id differs from the
device's configured location id, `sendActuatorCommand` returns `None`, no
actuator task's `updateActuator` is called and no actuator state changes
(the manager state is unchanged and there is no actuation effect). -/
theorem sendActuatorCommand_location_mismatch (hooks : ActuatorHooks)
    (m : ActuatorAdapterManager) (c : ActuatorData)
    (h1 : c.isResponse = false) (h2 : c.locationID ≠ m.locationID) :
    sendActuatorCommand hooks m (some c) = (m, none, []) := by
  simp [sendActuatorCommand, h1, h2]

/-- Witness for C3: a concrete command with a mismatched location id is
rejected without side effect. -/
theorem sendActuatorCommand_location_mismatch_witness :
    ({ mkActuatorData ventilationActuatorType "ventilator" with
        locationID := "elsewhere", command := commandOn,
        value := (50 : Rat) } : ActuatorData).isResponse = false ∧
    "elsewhere" ≠ "constraineddevice001" ∧
    sendActuatorCommand simHooks (mkActuatorAdapterManager "constraineddevice001" false false)
        (some { mkActuatorData ventilationActuatorType "ventilator" with
                  locationID := "elsewhere", command := commandOn, value := (50 : Rat) }) =
      (mkActuatorAdapterManager "constraineddevice001" false false, none, []) :=
  ⟨rfl, by decide,
   sendActuatorCommand_location_mismatch simHooks
     (mkActuatorAdapterManager "constraineddevice001" false false)
     { mkActuatorData ventilationActuatorType "ventilator" with
         locationID := "elsewhere", command := commandOn, value := (50 : Rat) }
     rfl (by decide)⟩

/-- C10: the legacy HVAC and Humidifier actuator references start as `None`
in the `ActuatorAdapterManager` constructor and no initialization path
(simulation, emulation, or emulation fallback) assigns them; hence every
non-response command with matching location id and HVAC or Humidifier type
code is answered with `None` and changes no actuator state. -/
theorem hvac_humidifier_slots_never_assigned (hooks : ActuatorHooks)
    (loc : String) (useEmulator ledLoadOk : Bool) (c : ActuatorData)
    (h1 : c.isResponse = false) (h2 : c.locationID = loc)
    (h3 : c.typeID = hvacActuatorType ∨ c.typeID = humidifierActuatorType) :
    (mkActuatorAdapterManager loc useEmulator ledLoadOk).hvacActuator = none ∧
    (mkActuatorAdapterManager loc useEmulator ledLoadOk).humidifierActuator = none ∧
    sendActuatorCommand hooks (mkActuatorAdapterManager loc useEmulator ledLoadOk)
        (some c) =
      (mkActuatorAdapterManager loc useEmulator ledLoadOk, none, []) := by
  have hloc : (mkActuatorAdapterManager loc useEmulator ledLoadOk).locationID = loc := by
    cases useEmulator <;> cases ledLoadOk <;>
      simp [mkActuatorAdapterManager, initActuatorEmulationTasks,
            initEnvironmentalActuationTasks]
  refine ⟨?_, ?_, ?_⟩
  · cases useEmulator <;> cases ledLoadOk <;>
      simp [mkActuatorAdapterManager, initActuatorEmulationTasks,
            initEnvironmentalActuationTasks]
  · cases useEmulator <;> cases ledLoadOk <;>
      simp [mkActuatorAdapterManager, initActuatorEmulationTasks,
            initEnvironmentalActuationTasks]
  · rcases h3 with h3 | h3 <;>
      cases useEmulator <;> cases ledLoadOk <;>
        simp [sendActuatorCommand, h1, h2, hloc, h3, mkActuatorAdapterManager,
              initActuatorEmulationTasks, initEnvironmentalActuationTasks,
              hvacActuatorType, humidifierActuatorType, ventilationActuatorType,
              airPurifierActuatorType, ledDisplayActuatorType]

/-- Witness for C10: a concrete HVAC-typed command with matching location is
answered with `None` by a concrete manager. -/
theorem hvac_humidifier_slots_never_assigned_witness :
    ({ mkActuatorData hvacActuatorType "hvac" with
        locationID := "constraineddevice001", command := commandOn,
        value := (21 : Rat) } : ActuatorData).isResponse = false ∧
    sendActuatorCommand simHooks (mkActuatorAdapterManager "constraineddevice001" true true)
        (some { mkActuatorData hvacActuatorType "hvac" with
                  locationID := "constraineddevice001", command := commandOn,
                  value := (21 : Rat) }) =
      (mkActuatorAdapterManager "constraineddevice001" true true, none, []) :=
  ⟨rfl,
   (hvac_humidifier_slots_never_assigned simHooks "constraineddevice001" true true
      { mkActuatorData hvacActuatorType "hvac" with
          locationID := "constraineddevice001", command := commandOn, value := (21 : Rat) }
      rfl rfl (Or.inl rfl)).2.2⟩

/-- C2: idempotence of the actuator apply.  For every actuator task, hook
implementation and command whose type code matches the task's, a second
consecutive `updateActuator` call with the same (command, value) pair
returns `None`, leaves the task state — in particular
(lastKnownCommand, lastKnownValue) — unchanged, and executes no activation
or deactivation side effect. -/
theorem updateActuator_idempotent (hooks : ActuatorHooks)
    (s : BaseActuatorSimTask) (c : ActuatorData) (h : s.typeID = c.typeID) :
    updateActuator hooks (updateActuator hooks s c).1 c =
      ((updateActuator hooks s c).1, none, []) := by
  by_cases hrep : c.command = s.lastKnownCommand ∧ c.value = s.lastKnownValue
  · simp [updateActuator, h, hrep]
  · simp [updateActuator, h, hrep]

/-- Witness for C2: a concrete ON command applied twice to the ventilation
task; the second call is debounced. -/
theorem updateActuator_idempotent_witness :
    mkVentilationActuatorSimTask.typeID =
      ({ mkActuatorData ventilationActuatorType "ventilator" with
           command := commandOn, value := (70 : Rat) } : ActuatorData).typeID ∧
    updateActuator simHooks
        (updateActuator simHooks mkVentilationActuatorSimTask
          { mkActuatorData ventilationActuatorType "ventilator" with
              command := commandOn, value := (70 : Rat) }).1
        { mkActuatorData ventilationActuatorType "ventilator" with
            command := commandOn, value := (70 : Rat) } =
      ((updateActuator simHooks mkVentilationActuatorSimTask
          { mkActuatorData ventilationActuatorType "ventilator" with
              command := commandOn, value := (70 : Rat) }).1, none, []) :=
  ⟨rfl, updateActuator_idempotent simHooks mkVentilationActuatorSimTask
          { mkActuatorData ventilationActuatorType "ventilator" with
              command := commandOn, value := (70 : Rat) } rfl⟩

/-- C4: for a matching-type command whose (command, value) pair differs from
the task's last-known pair and whose command code is neither ON nor OFF,
`updateActuator` returns a response carrying error status code -1, executes
no activation/deactivation effect, still updates
(lastKnownCommand, lastKnownValue) to the command's pair, and therefore
debounces an immediately repeated identical unknown command to `None`. -/
theorem updateActuator_unknown_command (hooks : ActuatorHooks)
    (s : BaseActuatorSimTask) (c : ActuatorData) (h : s.typeID = c.typeID)
    (hdiff : ¬ (c.command = s.lastKnownCommand ∧ c.value = s.lastKnownValue))
    (hon : c.command ≠ commandOn) (hoff : c.command ≠ commandOff) :
    (updateActuator hooks s c).2.1.map ActuatorData.statusCode = some (-1) ∧
    (updateActuator hooks s c).2.2 = [] ∧
    (updateActuator hooks s c).1.lastKnownCommand = c.command ∧
    (updateActuator hooks s c).1.lastKnownValue = c.value ∧
    (updateActuator hooks (updateActuator hooks s c).1 c).2.1 = none := by
  refine ⟨?_, ?_, ?_, ?_, ?_⟩ <;>
    simp [updateActuator, h, hdiff, hon, hoff, ActuatorData.setAsResponse,
          ActuatorData.setStatusCode, ActuatorData.updateData]

/-- Witness for C4: applying a concrete unknown command code (99) to the
ventilation task yields a -1 response, records the pair, and debounces the
repeat. -/
theorem updateActuator_unknown_command_witness :
    mkVentilationActuatorSimTask.typeID =
      ({ mkActuatorData ventilationActuatorType "ventilator" with
           command := (99 : Int), value := (70 : Rat) } : ActuatorData).typeID ∧
    ¬ (({ mkActuatorData ventilationActuatorType "ventilator" with
            command := (99 : Int), value := (70 : Rat) } : ActuatorData).command =
          mkVentilationActuatorSimTask.lastKnownCommand ∧
        ({ mkActuatorData ventilationActuatorType "ventilator" with
             command := (99 : Int), value := (70 : Rat) } : ActuatorData).value =
          mkVentilationActuatorSimTask.lastKnownValue) ∧
    (updateActuator simHooks mkVentilationActuatorSimTask
        { mkActuatorData ventilationActuatorType "ventilator" with
            command := (99 : Int), value := (70 : Rat) }).2.1.map
        ActuatorData.statusCode = some (-1) ∧
    (updateActuator simHooks
        (updateActuator simHooks mkVentilationActuatorSimTask
          { mkActuatorData ventilationActuatorType "ventilator" with
              command := (99 : Int), value := (70 : Rat) }).1
        { mkActuatorData ventilationActuatorType "ventilator" with
            command := (99 : Int), value := (70 : Rat) }).2.1 = none :=
  ⟨rfl, by decide,
   (updateActuator_unknown_command simHooks mkVentilationActuatorSimTask
      { mkActuatorData ventilationActuatorType "ventilator" with
          command := (99 : Int), value := (70 : Rat) }
      rfl (by decide) (by decide) (by decide)).1,
   (updateActuator_unknown_command simHooks mkVentilationActuatorSimTask
      { mkActuatorData ventilationActuatorType "ventilator" with
          command := (99 : Int), value := (70 : Rat) }
      rfl (by decide) (by decide) (by decide)).2.2.2.2⟩

/-- C5 counterexample: `SystemPerformanceManager.startManager` has no return
statement, so calling it on an already-started manager evaluates to `None`
(`none`), not `False` — the claim that it "returns false" fails. -/
theorem sysPerf_startManager_returns_none_counterexample :
    (sysPerfStartManager { isStarted := true, schedulerRunning := true }).2 ≠
      some false := by
  decide

/-- C5 (amended): `SensorAdapterManager.startManager` on an already-started
scheduler is a no-op returning `False`, and `stopManager` on an
already-stopped one returns `False`; `SystemPerformanceManager.startManager`
and `stopManager` are likewise no-ops in the already-started /
already-stopped cases, but they return `None` (the methods have no return
value), not `False`. -/
theorem scheduler_start_stop_idempotent
    (s t : SystemPerformanceManagerState)
    (hs : s.isStarted = true) (ht : t.isStarted = false) :
    sensorAdapterStartManager true = (true, false) ∧
    sensorAdapterStopManager false = (false, false) ∧
    sysPerfStartManager s = (s, none) ∧
    sysPerfStopManager t = (t, none) := by
  refine ⟨by decide, by decide, ?_, ?_⟩
  · simp [sysPerfStartManager, hs]
  · simp [sysPerfStopManager, ht]

/-- Witness for C5 (amended): concrete already-started / already-stopped
states. -/
theorem scheduler_start_stop_idempotent_witness :
    (⟨true, true⟩ : SystemPerformanceManagerState).isStarted = true ∧
    (⟨false, false⟩ : SystemPerformanceManagerState).isStarted = false ∧
    sensorAdapterStartManager true = (true, false) ∧
    sysPerfStartManager ⟨true, true⟩ = (⟨true, true⟩, none) :=
  ⟨rfl, rfl,
   (scheduler_start_stop_idempotent ⟨true, true⟩ ⟨false, false⟩ rfl rfl).1,
   (scheduler_start_stop_idempotent ⟨true, true⟩ ⟨false, false⟩ rfl rfl).2.2.1⟩

/-- Concrete configuration for the C6 counterexample: both rule-family flags
enabled, thresholds at their source defaults (HVAC floor 18, ventilation
temperature threshold 26). -/
def c6Config : DeviceDataConfig :=
  { handleCO2ChangeOnDevice := true, handleTempChangeOnDevice := true }

/-- Concrete reading for the C6 counterexample: a temperature reading of 10,
below the HVAC floor of 18. -/
def c6Reading : SensorData :=
  { name := "temp-1", typeID := tempSensorType,
    locationID := "constraineddevice001", value := 10 }

/-- C6 counterexample: the rule evaluation of `_handleSensorDataAnalysis`
contains no legacy HVAC branch — a temperature reading of 10, below the
configured floor of 18 and with the legacy flag enabled, produces no
command at all, in particular no Command(hvac, ON, floor). -/
theorem legacy_hvac_rule_counterexample :
    handleSensorDataAnalysis c6Config c6Reading = [] := by
  decide

/-- C6 (amended): the legacy HVAC rule is absent from rule evaluation — the
HVAC floor/ceiling configuration is loaded by the constructor but never
consulted; a temperature reading below the HVAC floor that does not exceed
the ventilation temperature threshold produces no command at all. -/
theorem temp_below_floor_produces_no_command (cfg : DeviceDataConfig)
    (data : SensorData) (htype : data.typeID = tempSensorType)
    (hfloor : data.value < cfg.triggerHvacTempFloor)
    (hvent : ¬ data.value > cfg.triggerVentilationTempThreshold) :
    handleSensorDataAnalysis cfg data = [] := by
  simp [handleSensorDataAnalysis, htype, hvent, tempSensorType, co2SensorType,
        humiditySensorType]

/-- Witness for C6 (amended): the concrete counterexample inputs yield the
empty command list. -/
theorem temp_below_floor_produces_no_command_witness :
    c6Reading.typeID = tempSensorType ∧
    c6Reading.value < c6Config.triggerHvacTempFloor ∧
    ¬ c6Reading.value > c6Config.triggerVentilationTempThreshold ∧
    handleSensorDataAnalysis c6Config c6Reading = [] :=
  ⟨rfl, by decide, by decide,
   temp_below_floor_produces_no_command c6Config c6Reading rfl (by decide) (by decide)⟩

/-- C7: CO2 rule determinism.  With the CO2-handling flag enabled and the CO2
ceiling at 1000, a CO2-typed reading of value 1200 dispatches exactly one
command — the ventilation-ON command carrying value 1200 — while a CO2-typed
reading of value 800 dispatches none. -/
theorem co2_rule_determinism (cfg : DeviceDataConfig) (data : SensorData)
    (hflag : cfg.handleCO2ChangeOnDevice = true)
    (hthr : cfg.triggerVentilationCO2Threshold = 1000)
    (htype : data.typeID = co2SensorType) :
    (data.value = 1200 →
      handleSensorDataAnalysis cfg data = [co2VentilationCommand data] ∧
      (co2VentilationCommand data).typeID = ventilationActuatorType ∧
      (co2VentilationCommand data).command = commandOn ∧
      (co2VentilationCommand data).value = 1200) ∧
    (data.value = 800 → handleSensorDataAnalysis cfg data = []) := by
  constructor
  · intro hv
    refine ⟨?_, ?_, ?_, ?_⟩
    · simp [handleSensorDataAnalysis, hflag, hthr, htype, hv, co2SensorType,
            tempSensorType, humiditySensorType]
      norm_num
    · simp [co2VentilationCommand, mkActuatorData]
    · simp [co2VentilationCommand, mkActuatorData]
    · simp [co2VentilationCommand, mkActuatorData, hv]
  · intro hv
    simp [handleSensorDataAnalysis, hflag, hthr, htype, hv, co2SensorType,
          tempSensorType, humiditySensorType]
    norm_num

/-- Concrete CO2 reading of 1200 ppm for the C7 witness. -/
def c7HighReading : SensorData :=
  { name := "co2-1", typeID := co2SensorType,
    locationID := "constraineddevice001", value := 1200 }

/-- Concrete CO2 reading of 800 ppm for the C7 witness. -/
def c7LowReading : SensorData :=
  { name := "co2-1", typeID := co2SensorType,
    locationID := "constraineddevice001", value := 800 }

/-- Witness for C7: the concrete 1200 ppm reading yields exactly the
ventilation-ON command, the concrete 800 ppm reading yields nothing. -/
theorem co2_rule_determinism_witness :
    c6Config.handleCO2ChangeOnDevice = true ∧
    c6Config.triggerVentilationCO2Threshold = 1000 ∧
    handleSensorDataAnalysis c6Config c7HighReading =
      [co2VentilationCommand c7HighReading] ∧
    handleSensorDataAnalysis c6Config c7LowReading = [] :=
  ⟨rfl, rfl,
   ((co2_rule_determinism c6Config c7HighReading rfl rfl rfl).1 rfl).1,
   (co2_rule_determinism c6Config c7LowReading rfl rfl rfl).2 rfl⟩

/-- Concrete reading with an empty name for the C9 counterexample. -/
def c9EmptyNameReading : SensorData :=
  { name := "", typeID := tempSensorType,
    locationID := "constraineddevice001", value := 5 }

/-- C9 counterexample: `handleSensorMessage` guards its cache write with
`if data.getName():`, so a non-null reading whose name is the empty string
is NOT written to the sensor cache — yet `True` is still returned.  The
claim that every non-null reading overwrites its cache entry fails. -/
theorem handleSensorMessage_empty_name_counterexample :
    (handleSensorMessage {} [] (some c9EmptyNameReading)
        false false false false).2.2.2 = true ∧
    cacheGet (handleSensorMessage {} [] (some c9EmptyNameReading)
        false false false false).1 c9EmptyNameReading.name ≠
      some c9EmptyNameReading := by
  constructor
  · decide
  · decide

/-- C9 (amended): `handleSensorMessage(null)` returns `False`; for every
non-null reading with a non-empty name it overwrites the sensor-data cache
entry for the reading's name with the new reading (last-write-wins, no
merge) and returns `True`; and both the resulting cache and the return
value are independent of whether the upstream MQTT/CoAP transmissions are
enabled or succeed.  A reading with an empty name is not cached, though
`True` is still returned. -/
theorem handleSensorMessage_cache_spec (cfg : DeviceDataConfig)
    (cache : List (String × SensorData)) (data : SensorData)
    (me ce mo co me' ce' mo' co' : Bool) (hname : data.name ≠ "") :
    handleSensorMessage cfg cache none me ce mo co =
      (cache, [], (false, false), false) ∧
    (handleSensorMessage cfg cache (some data) me ce mo co).2.2.2 = true ∧
    cacheGet (handleSensorMessage cfg cache (some data) me ce mo co).1
        data.name = some data ∧
    (handleSensorMessage cfg cache (some data) me ce mo co).1 =
      (handleSensorMessage cfg cache (some data) me' ce' mo' co').1 ∧
    (handleSensorMessage cfg cache (some data) me ce mo co).2.2.2 =
      (handleSensorMessage cfg cache (some data) me' ce' mo' co').2.2.2 := by
  refine ⟨rfl, rfl, ?_, rfl, rfl⟩
  simp [handleSensorMessage, hname, cacheGet, cachePut]

/-- Concrete readings for the C9 witness: "temp-1" at 22.5, later replaced by
19.0. -/
def c9FirstReading : SensorData :=
  { name := "temp-1", typeID := tempSensorType,
    locationID := "constraineddevice001", value := (45 : Rat) / 2 }

/-- The later "temp-1" reading of the C9 witness. -/
def c9SecondReading : SensorData :=
  { name := "temp-1", typeID := tempSensorType,
    locationID := "constraineddevice001", value := 19 }

/-- Witness for C9 (amended): caching 22.5 for "temp-1", then fully replacing
it with 19.0, with `True` returned and the null case returning `False`. -/
theorem handleSensorMessage_cache_spec_witness :
    c9FirstReading.name ≠ "" ∧
    cacheGet (handleSensorMessage {} [] (some c9FirstReading)
        true false true false).1 "temp-1" = some c9FirstReading ∧
    cacheGet (handleSensorMessage {}
        (handleSensorMessage {} [] (some c9FirstReading) true false true false).1
        (some c9SecondReading) true false false false).1 "temp-1" =
      some c9SecondReading ∧
    handleSensorMessage {} [] none true true true true =
      ([], [], (false, false), false) :=
  ⟨by decide,
   (handleSensorMessage_cache_spec {} [] c9FirstReading
      true false true false true true true true (by decide)).2.2.1,
   (handleSensorMessage_cache_spec {}
      (handleSensorMessage {} [] (some c9FirstReading) true false true false).1
      c9SecondReading true false false false true true true true (by decide)).2.2.1,
   (handleSensorMessage_cache_spec {} [] c9FirstReading
      true true true true true true true true (by decide)).1⟩

/-- One dataset-mode `generateTelemetry` call: the index advances by one
modulo the dataset length, the dataset and mode are untouched, and the
returned value is the dataset entry at the pre-call index. -/
theorem generateTelemetry_dataset_fields (s : BaseSensorSimTask)
    (hr : s.useRandomizer = false) (hlt : s.dataSetIndex < s.dataSet.length) :
    (generateTelemetry s 0).1.dataSetIndex =
      (s.dataSetIndex + 1) % s.dataSet.length ∧
    (generateTelemetry s 0).1.dataSet = s.dataSet ∧
    (generateTelemetry s 0).1.useRandomizer = false ∧
    (generateTelemetry s 0).2.value = s.dataSet.getD s.dataSetIndex defaultVal := by
  refine ⟨?_, ?_, ?_, ?_⟩ <;> simp [generateTelemetry, hr]
  by_cases hge : s.dataSetIndex + 1 ≥ s.dataSet.length
  · have heq : s.dataSetIndex + 1 = s.dataSet.length :=
      Nat.le_antisymm (Nat.succ_le_of_lt hlt) hge
    simp [hge, heq, Nat.mod_self]
  · have hlt' : s.dataSetIndex + 1 < s.dataSet.length := Nat.lt_of_not_le hge
    simp [hge, Nat.mod_eq_of_lt hlt']

/-- Invariant of iterated dataset-mode calls: the dataset and mode are
preserved and the index after `k` calls is the initial index plus `k`,
modulo the dataset length. -/
theorem genIter_dataset_invariant (s : BaseSensorSimTask)
    (hr : s.useRandomizer = false) (h0 : s.dataSetIndex < s.dataSet.length) :
    ∀ k, (genIter s k).dataSet = s.dataSet ∧
         (genIter s k).useRandomizer = false ∧
         (genIter s k).dataSetIndex = (s.dataSetIndex + k) % s.dataSet.length := by
  intro k
  induction k with
  | zero => exact ⟨rfl, hr, by simp [genIter, Nat.mod_eq_of_lt h0]⟩
  | succ m ih =>
    obtain ⟨hds, hur, hidx⟩ := ih
    have hpos : 0 < s.dataSet.length := Nat.pos_of_ne_zero (by
      intro hz
      rw [hz] at h0
      exact Nat.not_lt_zero _ h0)
    have hlt : (genIter s m).dataSetIndex < (genIter s m).dataSet.length := by
      rw [hidx, hds]
      exact Nat.mod_lt _ hpos
    have step := generateTelemetry_dataset_fields (genIter s m) hur hlt
    refine ⟨?_, ?_, ?_⟩
    · show (generateTelemetry (genIter s m) 0).1.dataSet = s.dataSet
      rw [step.2.1, hds]
    · exact step.2.2.1
    · show (generateTelemetry (genIter s m) 0).1.dataSetIndex =
        (s.dataSetIndex + (m + 1)) % s.dataSet.length
      rw [step.1, hidx, hds, Nat.mod_add_mod, Nat.add_assoc]

/-- C8: dataset wrap-around.  For a dataset-backed sensor task over a
dataset of length n, starting at index 0, the (n+1)-th `generateTelemetry`
call returns the same value as the 1st, and on every call the dataset index
advances by exactly one modulo n. -/
theorem dataset_wraparound (s : BaseSensorSimTask) (n : Nat)
    (hr : s.useRandomizer = false) (hn : s.dataSet.length = n) (hpos : 0 < n)
    (hidx : s.dataSetIndex = 0) :
    nthTelemetryValue s (n + 1) = nthTelemetryValue s 1 ∧
    ∀ k, (genIter s (k + 1)).dataSetIndex =
          ((genIter s k).dataSetIndex + 1) % n := by
  have h0 : s.dataSetIndex < s.dataSet.length := by
    rw [hidx, hn]
    exact hpos
  constructor
  · have invN := genIter_dataset_invariant s hr h0 n
    have hltN : (genIter s n).dataSetIndex < (genIter s n).dataSet.length := by
      rw [invN.2.2, invN.1, hn]
      exact Nat.mod_lt _ (hn ▸ hpos)
    have stepN := generateTelemetry_dataset_fields (genIter s n) invN.2.1 hltN
    have step0 := generateTelemetry_dataset_fields s hr h0
    show (generateTelemetry (genIter s (n + 1 - 1)) 0).2.value =
      (generateTelemetry (genIter s (1 - 1)) 0).2.value
    have hn1 : n + 1 - 1 = n := rfl
    have h11 : (1 : Nat) - 1 = 0 := rfl
    rw [hn1, h11, stepN.2.2.2]
    show (genIter s n).dataSet.getD (genIter s n).dataSetIndex defaultVal =
      (generateTelemetry (genIter s 0) 0).2.value
    have hg0 : genIter s 0 = s := rfl
    rw [hg0, step0.2.2.2, invN.1, invN.2.2, hidx, hn]
    simp
  · intro k
    have invK := genIter_dataset_invariant s hr h0 k
    have hltK : (genIter s k).dataSetIndex < (genIter s k).dataSet.length := by
      rw [invK.2.2, invK.1, hn]
      exact Nat.mod_lt _ (hn ▸ hpos)
    have stepK := generateTelemetry_dataset_fields (genIter s k) invK.2.1 hltK
    show (generateTelemetry (genIter s k) 0).1.dataSetIndex =
      ((genIter s k).dataSetIndex + 1) % n
    rw [stepK.1, invK.1, hn]

/-- A concrete five-entry dataset task for the C8 witness. -/
def c8Task : BaseSensorSimTask :=
  mkSensorTask co2SensorName co2SensorType
    [(420 : Rat), 550, 780, 990, 1150] 400 1200

/-- Witness for C8: on the five-entry dataset, the 6th call returns the same
value as the 1st, and the 7th call advances the index by one modulo 5. -/
theorem dataset_wraparound_witness :
    c8Task.useRandomizer = false ∧
    c8Task.dataSet.length = 5 ∧
    c8Task.dataSetIndex = 0 ∧
    nthTelemetryValue c8Task 6 = nthTelemetryValue c8Task 1 ∧
    (genIter c8Task 7).dataSetIndex = ((genIter c8Task 6).dataSetIndex + 1) % 5 :=
  ⟨rfl, rfl, rfl,
   (dataset_wraparound c8Task 5 rfl rfl (by decide) rfl).1,
   (dataset_wraparound c8Task 5 rfl rfl (by decide) rfl).2 6⟩

end PiotCDA
